import Mathlib

/-!
Shallow embedding of `src/app.py` (facedoctor-whatsapp-api): a Flask webhook
relay between the WhatsApp Cloud API and a Supabase backing store.

The Python values flowing through the handlers are JSON values (dicts, lists,
strings, numbers, booleans, null), so the embedding carries an explicit `Json`
type together with models of the Python operations the source uses on them:
subscription `d[k]`, indexing `l[i]`, membership `k in d`, `dict.get` with a
default, and truthiness (`if not x`).  Operations that raise in Python are
modelled in an `Except String` monad; the string is the exception description.

The backing store (the four Supabase tables) is a `Store` record threaded
through each function.  The store's own failure modes (network errors of the
Supabase client) are not injected: every `try`/`except` around store calls in
the source only swallows such external faults, while the exceptions that the
webhook handler's `except` branch actually catches deterministically are the
`KeyError`/`IndexError`/`TypeError`/`AttributeError` raised by the payload
navigation, and those are modelled exactly.  The external HTTP send
(`requests.post` + `raise_for_status`) is an oracle parameter
`net : Except String Unit` supplied by the environment.
-/

namespace FaceDoctor

/-- A JSON value, as handled by `request.json` and the Supabase client. -/
inductive Json where
  | null
  | bool (b : Bool)
  | num (n : Int)
  | str (s : String)
  | arr (xs : List Json)
  | obj (kvs : List (String × Json))
  deriving Repr

mutual

/-- Structural equality of JSON values (Python `==` / the store's `eq` filter
restricted to same-typed operands, which is all the source compares). -/
def jsonEq : Json → Json → Bool
  | .null, .null => true
  | .bool a, .bool b => a == b
  | .num a, .num b => a == b
  | .str a, .str b => a == b
  | .arr xs, .arr ys => jsonEqList xs ys
  | .obj xs, .obj ys => jsonEqObj xs ys
  | _, _ => false

/-- Pointwise equality of JSON arrays. -/
def jsonEqList : List Json → List Json → Bool
  | [], [] => true
  | x :: xs, y :: ys => jsonEq x y && jsonEqList xs ys
  | _, _ => false

/-- Pointwise equality of JSON objects (field order significant, as in the
association lists the embedding uses). -/
def jsonEqObj : List (String × Json) → List (String × Json) → Bool
  | [], [] => true
  | (k1, v1) :: xs, (k2, v2) :: ys => k1 == k2 && jsonEq v1 v2 && jsonEqObj xs ys
  | _, _ => false

end

/-- Python truthiness of a JSON value: `None`, `False`, `0`, `""`, `[]` and
an empty dict are falsy, everything else is truthy. -/
def pyTruthy : Json → Bool
  | .null => false
  | .bool b => b
  | .num n => n != 0
  | .str s => !s.isEmpty
  | .arr xs => !xs.isEmpty
  | .obj kvs => !kvs.isEmpty

/-- Substring test, modelling Python `needle in haystack` on strings. -/
def strContains (haystack needle : String) : Bool :=
  needle.isEmpty || (haystack.splitOn needle).length > 1

/-- Python `k in j`: key membership for a dict, element membership for a
list, substring test for a string; `TypeError` otherwise. -/
def pyContains (j : Json) (k : String) : Except String Bool :=
  match j with
  | .obj kvs => .ok (kvs.any (fun p => p.1 == k))
  | .arr xs => .ok (xs.any (fun x => jsonEq x (Json.str k)))
  | .str s => .ok (strContains s k)
  | _ => .error "TypeError: argument is not iterable"

/-- Python `j[k]` with a string key: dict lookup (`KeyError` on a missing
key), `TypeError` on anything that is not a dict. -/
def pyGetItem (j : Json) (k : String) : Except String Json :=
  match j with
  | .obj kvs =>
    match kvs.find? (fun p => p.1 == k) with
    | some p => .ok p.2
    | none => .error ("KeyError: " ++ k)
  | _ => .error "TypeError: not subscriptable by string key"

/-- Python `j[i]` with a non-negative integer index: list indexing
(`IndexError` when out of range), single-character string for a string,
`TypeError` otherwise. -/
def pyIndex (j : Json) (i : Nat) : Except String Json :=
  match j with
  | .arr xs =>
    match xs.get? i with
    | some x => .ok x
    | none => .error "IndexError: list index out of range"
  | .str s =>
    match s.toList.get? i with
    | some c => .ok (Json.str (String.mk [c]))
    | none => .error "IndexError: string index out of range"
  | _ => .error "TypeError: not subscriptable by integer"

/-- Python `j.get(k, default)`: only dicts have `.get`; anything else raises
`AttributeError`. -/
def pyGetDefault (j : Json) (k : String) (default : Json) : Except String Json :=
  match j with
  | .obj kvs =>
    match kvs.find? (fun p => p.1 == k) with
    | some p => .ok p.2
    | none => .ok default
  | _ => .error "AttributeError: object has no attribute get"

/-- Truthiness of `os.environ.get(...)`: unset (`None`) and the empty string
are falsy. -/
def optStrTruthy : Option String → Bool
  | none => false
  | some s => !s.isEmpty

/-- The environment configuration the module reads at start-up:
`SUPABASE_URL`/`SUPABASE_KEY` collapse to whether the Supabase client was
created (line 21 of the source), `META_TOKEN` and `META_PHONE_ID` are kept
as the raw optional strings because the source tests their truthiness. -/
structure Config where
  supabaseConfigured : Bool
  metaToken : Option String
  metaPhoneId : Option String

/-- A row of the `pipeline_stages` table (the two columns the source touches). -/
structure PipelineStage where
  id : Nat
  position : Int

/-- A row of the `leads` table.  `name` and `phone` are JSON values because
the source stores whatever the payload navigation produced; `last_message_at`
is the store-side timestamp (`now()` writes the store's current clock). -/
structure Lead where
  id : Nat
  name : Json
  phone : Json
  stage_id : Nat
  unread_count : Nat
  custom_fields : List (String × Json)
  last_message_at : Option Nat
  last_message_content : Option Json

/-- A row of the `messages` table, exactly the dict built by
`salvar_mensagem`. -/
structure Message where
  lead_id : Json
  content : Json
  direction : String
  type : String
  status : String

/-- A row of the `system_logs` table, exactly the dict built by
`log_system_event`. -/
structure SystemLogEntry where
  level : String
  source : String
  message : String
  metadata : Option Json

/-- The backing store: the four tables, the id the store will assign to the
next inserted lead, and the store's clock (the value `now()` evaluates to). -/
structure Store where
  leads : List Lead
  pipeline_stages : List PipelineStage
  messages : List Message
  system_logs : List SystemLogEntry
  nextLeadId : Nat
  now : Nat

/-- `log_system_event` (source lines 23-34): appends one row to `system_logs`
when the Supabase client exists, otherwise returns without writing.  The
`try`/`except` swallowing an insert failure of the client itself is the
happy path here (store faults are not injected, see the module comment). -/
def log_system_event (cfg : Config) (s : Store) (level source message : String)
    (metadata : Option Json) : Store :=
  if cfg.supabaseConfigured then
    { s with system_logs := s.system_logs ++
        [{ level := level, source := source, message := message, metadata := metadata }] }
  else s

/-- Which control-flow path `enviar_mensagem_whatsapp` took.  The Python
function returns `None` on every path; the embedding reifies the path so that
"fails with ConfigurationError" and "no network call attempted" are statable. -/
inductive SendResult where
  | configError
  | sent
  | deliveryError (e : String)

/-- `enviar_mensagem_whatsapp` (source lines 36-63).  `net` is the outcome of
the single `requests.post` + `raise_for_status` call; it is consulted only
when both Meta credentials are truthy.  On a network failure the source logs
under `API_SEND` with the exception's response as metadata; the interpolation
of the recipient into the message text is elided (no claim inspects it). -/
def enviar_mensagem_whatsapp (cfg : Config) (s : Store) (numero texto : Json)
    (net : Except String Unit) : Store × SendResult :=
  if !optStrTruthy cfg.metaToken || !optStrTruthy cfg.metaPhoneId then
    (log_system_event cfg s "ERROR" "API_SEND" "Credenciais da Meta não configuradas." none,
     SendResult.configError)
  else
    match net with
    | .ok _ => (s, SendResult.sent)
    | .error e =>
      (log_system_event cfg s "ERROR" "API_SEND" ("Erro ao enviar no WhatsApp: " ++ e)
         (some (Json.obj [("response", Json.str e)])),
       SendResult.deliveryError e)

/-- The first row of `pipeline_stages` ordered ascending by `position`
(`order('position').limit(1)`, stable in table order for ties). -/
def firstStage : List PipelineStage → Option PipelineStage
  | [] => none
  | st :: rest =>
    match firstStage rest with
    | none => some st
    | some best => if st.position ≤ best.position then some st else some best

/-- `get_or_create_lead` (source lines 65-100).  Looks up the first lead whose
`phone` equals the input; on a miss resolves the first pipeline stage and
inserts a new lead.  The source guards the resolved stage id with Python
truthiness (`if not first_stage_id`), so a stage id of `0` takes the same
error path as an empty stage table. -/
def get_or_create_lead (cfg : Config) (s : Store) (phone name : Json) :
    Store × Option Lead :=
  if !cfg.supabaseConfigured then (s, none)
  else
    match s.leads.find? (fun l => jsonEq l.phone phone) with
    | some l => (s, some l)
    | none =>
      let noStage : Store × Option Lead :=
        (log_system_event cfg s "ERROR" "SYSTEM"
           "Nenhuma etapa de funil encontrada para criar o lead." none, none)
      match firstStage s.pipeline_stages with
      | none => noStage
      | some st =>
        if st.id = 0 then noStage
        else
          let newLead : Lead :=
            { id := s.nextLeadId, name := name, phone := phone, stage_id := st.id,
              unread_count := 1, custom_fields := [],
              last_message_at := none, last_message_content := none }
          ({ s with leads := s.leads ++ [newLead], nextLeadId := s.nextLeadId + 1 },
           some newLead)

/-- Does the store row `l` of `leads` match the filter `eq('id', lid)`? -/
def leadIdMatches (l : Lead) (lid : Json) : Bool :=
  jsonEq (Json.num (Int.ofNat l.id)) lid

/-- `salvar_mensagem` (source lines 102-126): no-op when the client is absent
or `lead_id` is falsy; otherwise inserts one `messages` row (status `read`
for inbound, `sent` otherwise) and, for inbound only, updates the matching
lead's `last_message_at` (to the store clock) and `last_message_content`. -/
def salvar_mensagem (cfg : Config) (s : Store) (lead_id content : Json)
    (direction : String) : Store :=
  if !cfg.supabaseConfigured || !pyTruthy lead_id then s
  else
    let msg : Message :=
      { lead_id := lead_id, content := content, direction := direction, type := "text",
        status := if direction == "inbound" then "read" else "sent" }
    let s1 : Store := { s with messages := s.messages ++ [msg] }
    if direction == "inbound" then
      { s1 with leads := s1.leads.map (fun l =>
          if leadIdMatches l lead_id then
            { l with last_message_at := some s.now, last_message_content := some content }
          else l) }
    else s1

/-- An HTTP response of a Flask route: JSON body and status code. -/
structure HttpResp where
  body : Json
  code : Nat

/-- The payload navigation of the webhook POST branch (source lines 151-163),
in source order: the `'object' in data and 'entry' in data` guard, then
`data['entry'][0]`, `entry['changes'][0]`, `changes['value']`, the
`'messages' in value` guard, `value['messages'][0]`, the `type == 'text'`
guard, and the extraction of `from`, `text.body`, `contacts` and the profile
name.  Returns `none` when a guard falls through (the event is silently
ignored), `some (numero, corpo, nome)` for a text message, and an error when
the navigation raises. -/
def parse_event (data : Json) : Except String (Option (Json × Json × Json)) := do
  let hasObject ← pyContains data "object"
  let hasEntry ← pyContains data "entry"
  if hasObject && hasEntry then
    let entry ← pyIndex (← pyGetItem data "entry") 0
    let changes ← pyIndex (← pyGetItem entry "changes") 0
    let value ← pyGetItem changes "value"
    let hasMessages ← pyContains value "messages"
    if hasMessages then
      let message ← pyIndex (← pyGetItem value "messages") 0
      let mtype ← pyGetItem message "type"
      if jsonEq mtype (Json.str "text") then
        let numero ← pyGetItem message "from"
        let corpo ← pyGetItem (← pyGetItem message "text") "body"
        let contacts ← pyGetDefault value "contacts" (Json.arr [Json.obj []])
        let contact0 ← pyIndex contacts 0
        let profile ← pyGetDefault contact0 "profile" (Json.obj [])
        let nome ← pyGetDefault profile "name" (Json.str "Cliente")
        return some (numero, corpo, nome)
      else return none
    else return none
  else return none

/-- The persistence part of the webhook body (source lines 167-170): with the
client configured, resolve or create the lead and, if one was obtained,
record the message as inbound under the lead's id. -/
def handle_text (cfg : Config) (s : Store) (numero corpo nome : Json) : Store :=
  if cfg.supabaseConfigured then
    match get_or_create_lead cfg s numero nome with
    | (s1, some lead) => salvar_mensagem cfg s1 (Json.num (Int.ofNat lead.id)) corpo "inbound"
    | (s1, none) => s1
  else s

/-- The body of the webhook POST branch's `try` block (source lines 150-170):
parse the event, and for a text message run `handle_text`; an error is a
payload exception escaping to the handler's `except`. -/
def webhook_process (cfg : Config) (s : Store) (data : Json) : Except String Store :=
  match parse_event data with
  | .error e => .error e
  | .ok none => .ok s
  | .ok (some (numero, corpo, nome)) => .ok (handle_text cfg s numero corpo nome)

/-- The webhook POST route (source lines 148-176): runs the `try` block; on
an exception logs once under `WEBHOOK_META` with the raw payload as metadata
(no store mutation preceded the exception, since the whole navigation runs
before any Supabase call); in every case answers
`jsonify('status': 'success'), 200`. -/
def webhook_post (cfg : Config) (s : Store) (data : Json) : Store × HttpResp :=
  let okResp : HttpResp := { body := Json.obj [("status", Json.str "success")], code := 200 }
  match webhook_process cfg s data with
  | .ok s1 => (s1, okResp)
  | .error e =>
    (log_system_event cfg s "ERROR" "WEBHOOK_META" ("Falha no processamento: " ++ e)
       (some (Json.obj [("payload", data)])),
     okResp)

/-- The `/send_message` route (source lines 178-193): reads `phone`, `text`
and `lead_id` with `dict.get` (an `AttributeError` on a non-dict body is not
caught and escapes, hence the outer `Except`), rejects a falsy phone or text
with a 400, dispatches unconditionally, records the outbound message only
when `lead_id` is truthy, and reports `status: sent`, 200. -/
def api_send_message (cfg : Config) (s : Store) (data : Json)
    (net : Except String Unit) : Except String (Store × HttpResp) := do
  let phone ← pyGetDefault data "phone" Json.null
  let text ← pyGetDefault data "text" Json.null
  let lead_id ← pyGetDefault data "lead_id" Json.null
  if !pyTruthy phone || !pyTruthy text then
    return (s, { body := Json.obj [("error", Json.str "Missing phone or text")], code := 400 })
  else
    let s1 := (enviar_mensagem_whatsapp cfg s phone text net).1
    let s2 := if pyTruthy lead_id then salvar_mensagem cfg s1 lead_id text "outbound" else s1
    return (s2, { body := Json.obj [("status", Json.str "sent")], code := 200 })

/-! Concrete fixtures used to instantiate the theorems below. -/

/-- Configuration with the Supabase client and both Meta credentials set. -/
def cfgFull : Config :=
  { supabaseConfigured := true, metaToken := some "tok", metaPhoneId := some "ph" }

/-- Configuration with Meta credentials but no Supabase client. -/
def cfgNoStore : Config :=
  { supabaseConfigured := false, metaToken := some "tok", metaPhoneId := some "ph" }

/-- Configuration with the Supabase client but neither Meta credential. -/
def cfgStoreOnly : Config :=
  { supabaseConfigured := true, metaToken := none, metaPhoneId := none }

/-- Configuration with nothing set. -/
def cfgNone : Config :=
  { supabaseConfigured := false, metaToken := none, metaPhoneId := none }

/-- A store with all four tables empty. -/
def emptyStore : Store :=
  { leads := [], pipeline_stages := [], messages := [], system_logs := [],
    nextLeadId := 1, now := 5 }

/-- `webhook_post` and `api_send_message`'s success body. -/
def successBody : Json := Json.obj [("status", Json.str "success")]

/-- A webhook payload in the Meta envelope shape: a first entry holding a
first change whose value carries a non-empty `messages` list and a
`contacts` value, together with arbitrary further messages, changes and
entries. -/
def inboundPayload (msg : Json) (extraMsgs : List Json) (contacts : Json)
    (extraChanges : List Json) (extraEntries : List Json) : Json :=
  Json.obj
    [("object", Json.str "whatsapp_business_account"),
     ("entry", Json.arr
       (Json.obj
         [("changes", Json.arr
           (Json.obj
             [("value", Json.obj
               [("messages", Json.arr (msg :: extraMsgs)),
                ("contacts", contacts)])]
            :: extraChanges))]
        :: extraEntries))]

/-- The part of a log row the claims inspect: severity, source and message
text (the optional metadata additionally echoes raw payloads). -/
def logHead (e : SystemLogEntry) : String × String × String :=
  (e.level, e.source, e.message)

/-- A WhatsApp text message object as navigated by the webhook handler. -/
def textMessage (phone corpo : Json) : Json :=
  Json.obj [("type", Json.str "text"), ("from", phone),
            ("text", Json.obj [("body", corpo)])]

/-- A `contacts` value carrying one profile name. -/
def contactsOf (nome : Json) : Json :=
  Json.arr [Json.obj [("profile", Json.obj [("name", nome)])]]

/-- A well-formed single-text-message webhook payload. -/
def textPayload (phone nome corpo : Json) : Json :=
  inboundPayload (textMessage phone corpo) [] (contactsOf nome) [] []

/-- A syntactically valid envelope whose `entry` list is empty: navigating
`data['entry'][0]` raises `IndexError`. -/
def malformedPayload : Json :=
  Json.obj [("object", Json.str "whatsapp_business_account"), ("entry", Json.arr [])]

/-- A store whose only pipeline stage has the falsy id `0`. -/
def stageZeroStore : Store :=
  { emptyStore with pipeline_stages := [{ id := 0, position := 0 }] }

/-- A store with two pipeline stages, the minimal-position one having id 7. -/
def stageOneStore : Store :=
  { emptyStore with pipeline_stages := [{ id := 9, position := 4 }, { id := 7, position := 2 }] }

/-- A lead row used to exercise the recorder. -/
def anaLead : Lead :=
  { id := 3, name := Json.str "Ana", phone := Json.str "+15551234", stage_id := 7,
    unread_count := 1, custom_fields := [], last_message_at := none,
    last_message_content := none }

/-- A store holding exactly `anaLead`. -/
def oneLeadStore : Store := { emptyStore with leads := [anaLead] }

/-- A `/send_message` request body carrying the three fields the route reads. -/
def sendBody (phone text lead_id : Json) : Json :=
  Json.obj [("phone", phone), ("text", text), ("lead_id", lead_id)]

/-- A well-formed `/send_message` request body. -/
def sendData : Json :=
  sendBody (Json.str "+15551234") (Json.str "Hi back") (Json.num 42)

/-- C6: every syntactically accepted POST to the webhook endpoint is answered
with the fixed success acknowledgment (status success, HTTP 200), whatever
the payload, the configuration and the store — internal outcomes, including
payload exceptions caught by the handler, are never surfaced. -/
theorem webhook_post_always_success (cfg : Config) (s : Store) (data : Json) :
    (webhook_post cfg s data).2 = { body := successBody, code := 200 } := by
  unfold webhook_post successBody
  cases webhook_process cfg s data <;> rfl

/-- C9: recording a message with an absent (`null`) lead identifier is a
complete no-op: the store (messages, leads, logs) is returned unchanged and
no error is signalled. -/
theorem salvar_mensagem_null_lead_noop (cfg : Config) (s : Store)
    (content : Json) (direction : String) :
    salvar_mensagem cfg s Json.null content direction = s := by
  simp [salvar_mensagem, pyTruthy]

/-- C8: recording an outbound message never mutates the leads table (in
particular no lead's last-message fields) nor the log table; the only write
is the single outbound `sent` message row, inserted exactly when the client
is configured and the lead identifier is truthy. -/
theorem salvar_mensagem_outbound_frame (cfg : Config) (s : Store)
    (lead_id content : Json) :
    (salvar_mensagem cfg s lead_id content "outbound").leads = s.leads ∧
    (salvar_mensagem cfg s lead_id content "outbound").system_logs = s.system_logs ∧
    (salvar_mensagem cfg s lead_id content "outbound").messages =
      (if cfg.supabaseConfigured && pyTruthy lead_id then
        s.messages ++ [{ lead_id := lead_id, content := content, direction := "outbound",
                         type := "text", status := "sent" }]
       else s.messages) := by
  cases h1 : cfg.supabaseConfigured <;> cases h2 : pyTruthy lead_id <;>
    simp [salvar_mensagem, h1, h2]

/-- Parsing a well-formed single-text-message payload yields its phone, body
and profile name. -/
theorem parse_event_textPayload (phone nome corpo : Json) :
    parse_event (textPayload phone nome corpo) =
      Except.ok (some (phone, corpo, nome)) := rfl

/-- Unfolding equation: the `try` block on a payload that parses to a text
message runs `handle_text` on the extracted fields. -/
theorem webhook_process_some (cfg : Config) (s : Store) (data : Json)
    (numero corpo nome : Json)
    (hp : parse_event data = Except.ok (some (numero, corpo, nome))) :
    webhook_process cfg s data = Except.ok (handle_text cfg s numero corpo nome) := by
  unfold webhook_process
  rw [hp]

/-- Unfolding equation: the route on a successfully processed payload answers
success with the processed store. -/
theorem webhook_post_ok (cfg : Config) (s : Store) (data : Json) (s1 : Store)
    (h : webhook_process cfg s data = Except.ok s1) :
    webhook_post cfg s data = (s1, { body := successBody, code := 200 }) := by
  unfold webhook_post successBody
  rw [h]

/-- Unfolding equation: the route on a payload whose navigation raises logs
once under `WEBHOOK_META` and still answers success. -/
theorem webhook_post_error (cfg : Config) (s : Store) (data : Json) (e : String)
    (h : webhook_process cfg s data = Except.error e) :
    webhook_post cfg s data =
      (log_system_event cfg s "ERROR" "WEBHOOK_META" ("Falha no processamento: " ++ e)
         (some (Json.obj [("payload", data)])),
       { body := successBody, code := 200 }) := by
  unfold webhook_post successBody
  rw [h]

/-- The `try`-block outcome depends only on the first entry, change and
message: extra messages, changes and entries are never inspected. -/
theorem webhook_process_truncate (cfg : Config) (s : Store) (msg : Json)
    (extraMsgs : List Json) (contacts : Json) (extraChanges extraEntries : List Json) :
    webhook_process cfg s (inboundPayload msg extraMsgs contacts extraChanges extraEntries) =
      webhook_process cfg s (inboundPayload msg [] contacts [] []) := by
  have hp : parse_event (inboundPayload msg extraMsgs contacts extraChanges extraEntries) =
      parse_event (inboundPayload msg [] contacts [] []) := rfl
  unfold webhook_process
  rw [hp]

/-- Two payloads on which the `try` block computes the same outcome get the
same response and the same store, except that a caught-exception log entry
echoes the respective raw payload in its metadata. -/
theorem webhook_post_congr (cfg : Config) (s : Store) (d1 d2 : Json)
    (h : webhook_process cfg s d1 = webhook_process cfg s d2) :
    (webhook_post cfg s d1).2 = (webhook_post cfg s d2).2 ∧
    (webhook_post cfg s d1).1.leads = (webhook_post cfg s d2).1.leads ∧
    (webhook_post cfg s d1).1.messages = (webhook_post cfg s d2).1.messages ∧
    (webhook_post cfg s d1).1.nextLeadId = (webhook_post cfg s d2).1.nextLeadId ∧
    (webhook_post cfg s d1).1.system_logs.map logHead =
      (webhook_post cfg s d2).1.system_logs.map logHead := by
  unfold webhook_post
  rw [h]
  cases webhook_process cfg s d2 with
  | ok s1 => exact ⟨rfl, rfl, rfl, rfl, rfl⟩
  | error e =>
    cases hc : cfg.supabaseConfigured <;> simp [log_system_event, hc, logHead]

/-- C10: the webhook handler reads only `entry[0].changes[0].value` and only
`messages[0]` of it: response, leads, messages, assigned ids and written log
entries (up to the raw-payload echo inside a caught-exception entry's
metadata) are exactly those of the payload truncated to its first entry,
first change and first message — every further message is dropped with no
lead resolution, no message record and no log entry of its own. -/
theorem webhook_processes_only_first_message (cfg : Config) (s : Store)
    (msg : Json) (extraMsgs : List Json) (contacts : Json)
    (extraChanges extraEntries : List Json) :
    (webhook_post cfg s (inboundPayload msg extraMsgs contacts extraChanges extraEntries)).2 =
      (webhook_post cfg s (inboundPayload msg [] contacts [] [])).2 ∧
    (webhook_post cfg s (inboundPayload msg extraMsgs contacts extraChanges extraEntries)).1.leads =
      (webhook_post cfg s (inboundPayload msg [] contacts [] [])).1.leads ∧
    (webhook_post cfg s (inboundPayload msg extraMsgs contacts extraChanges extraEntries)).1.messages =
      (webhook_post cfg s (inboundPayload msg [] contacts [] [])).1.messages ∧
    (webhook_post cfg s (inboundPayload msg extraMsgs contacts extraChanges extraEntries)).1.nextLeadId =
      (webhook_post cfg s (inboundPayload msg [] contacts [] [])).1.nextLeadId ∧
    (webhook_post cfg s (inboundPayload msg extraMsgs contacts extraChanges extraEntries)).1.system_logs.map logHead =
      (webhook_post cfg s (inboundPayload msg [] contacts [] [])).1.system_logs.map logHead :=
  webhook_post_congr cfg s _ _
    (webhook_process_truncate cfg s msg extraMsgs contacts extraChanges extraEntries)

/-- C5 counterexample: the malformed payload with an empty `entry` list is
"an inbound event with malformed fields", yet processing it writes one
`WEBHOOK_META` log entry (while indeed creating no lead and no message), so
the claim's "without writing any log entry" fails as stated. -/
theorem webhook_malformed_logs_cex :
    (webhook_post cfgFull emptyStore malformedPayload).1.system_logs.map logHead =
      [("ERROR", "WEBHOOK_META",
        "Falha no processamento: IndexError: list index out of range")] ∧
    (webhook_post cfgFull emptyStore malformedPayload).1.leads = [] ∧
    (webhook_post cfgFull emptyStore malformedPayload).1.messages = [] :=
  ⟨rfl, rfl, rfl⟩

/-- C5 (amended): an inbound event that is not a text message or is malformed
is ignored without error: the endpoint still answers success, no lead is
created and no message is recorded; an event that merely falls through the
handler's guards (missing envelope keys, no `messages`, non-text type)
additionally writes no log entry, while one whose navigation raises is
caught and logged once under `WEBHOOK_META` (when the client is configured). -/
theorem webhook_ignores_non_text_and_malformed (cfg : Config) (s : Store) (data : Json)
    (h : parse_event data = Except.ok none ∨ ∃ e, parse_event data = Except.error e) :
    (webhook_post cfg s data).2 = { body := successBody, code := 200 } ∧
    (webhook_post cfg s data).1.leads = s.leads ∧
    (webhook_post cfg s data).1.messages = s.messages ∧
    (parse_event data = Except.ok none →
      (webhook_post cfg s data).1.system_logs = s.system_logs) ∧
    (∀ e, parse_event data = Except.error e →
      (webhook_post cfg s data).1.system_logs =
        (if cfg.supabaseConfigured then
          s.system_logs ++
            [{ level := "ERROR", source := "WEBHOOK_META",
               message := "Falha no processamento: " ++ e,
               metadata := some (Json.obj [("payload", data)]) }]
         else s.system_logs)) := by
  rcases h with hok | ⟨e, herr⟩
  · have hw : webhook_post cfg s data = (s, { body := successBody, code := 200 }) := by
      unfold webhook_post successBody webhook_process
      rw [hok]
    refine ⟨by rw [hw], by rw [hw], by rw [hw], fun _ => by rw [hw], fun e2 he2 => ?_⟩
    rw [hok] at he2
    exact absurd he2 (by simp)
  · have hproc : webhook_process cfg s data = Except.error e := by
      unfold webhook_process
      rw [herr]
    have hw := webhook_post_error cfg s data e hproc
    refine ⟨by rw [hw], ?_, ?_, fun hok2 => ?_, fun e2 he2 => ?_⟩
    · rw [hw]; unfold log_system_event; cases cfg.supabaseConfigured <;> rfl
    · rw [hw]; unfold log_system_event; cases cfg.supabaseConfigured <;> rfl
    · rw [herr] at hok2; exact absurd hok2 (by simp)
    · rw [herr] at he2
      injection he2 with he3
      subst he3
      rw [hw]
      unfold log_system_event
      cases cfg.supabaseConfigured <;> rfl

/-- C5 witness: the empty-`entry` payload raises during navigation, and the
amended theorem applies to it: no message is recorded. -/
theorem webhook_ignores_non_text_and_malformed_witness :
    (∃ e, parse_event malformedPayload = Except.error e) ∧
    (webhook_post cfgFull emptyStore malformedPayload).1.messages = [] :=
  ⟨⟨"IndexError: list index out of range", rfl⟩,
   (webhook_ignores_non_text_and_malformed cfgFull emptyStore malformedPayload
      (Or.inr ⟨"IndexError: list index out of range", rfl⟩)).2.2.1⟩

/-- C7: with the client configured, an unknown recipient address and an empty
pipeline-stage table, the resolver returns null, appends exactly one
`SYSTEM`-sourced error row to the log table, creates no lead, touches no
message, and the inbound pipeline consequently records no message for such a
payload. -/
theorem get_or_create_lead_no_stage_spec (cfg : Config) (s : Store) (phone name : Json)
    (hcfg : cfg.supabaseConfigured = true)
    (hmiss : s.leads.find? (fun l => jsonEq l.phone phone) = none)
    (hstages : s.pipeline_stages = []) :
    (get_or_create_lead cfg s phone name).2 = none ∧
    (get_or_create_lead cfg s phone name).1.leads = s.leads ∧
    (get_or_create_lead cfg s phone name).1.messages = s.messages ∧
    (get_or_create_lead cfg s phone name).1.system_logs = s.system_logs ++
      [{ level := "ERROR", source := "SYSTEM",
         message := "Nenhuma etapa de funil encontrada para criar o lead.",
         metadata := none }] ∧
    (∀ nome corpo, (webhook_post cfg s (textPayload phone nome corpo)).1.messages =
      s.messages) := by
  have hget : ∀ nm : Json, get_or_create_lead cfg s phone nm =
      (log_system_event cfg s "ERROR" "SYSTEM"
        "Nenhuma etapa de funil encontrada para criar o lead." none, none) := by
    intro nm
    unfold get_or_create_lead
    rw [hcfg, hmiss, hstages]
    rfl
  refine ⟨by rw [hget name], ?_, ?_, ?_, ?_⟩
  · rw [hget name]; unfold log_system_event; rw [hcfg]; rfl
  · rw [hget name]; unfold log_system_event; rw [hcfg]; rfl
  · rw [hget name]; unfold log_system_event; rw [hcfg]; rfl
  · intro nome corpo
    have hwp := webhook_process_some cfg s (textPayload phone nome corpo) phone corpo nome
      (parse_event_textPayload phone nome corpo)
    have hht : handle_text cfg s phone corpo nome =
        log_system_event cfg s "ERROR" "SYSTEM"
          "Nenhuma etapa de funil encontrada para criar o lead." none := by
      unfold handle_text
      rw [hcfg, hget nome]
      rfl
    rw [webhook_post_ok cfg s (textPayload phone nome corpo) _ hwp, hht]
    unfold log_system_event
    rw [hcfg]
    rfl

/-- C7 witness: the concrete configured-but-stageless store exhibits the
hypotheses, and the theorem yields the null result with the single `SYSTEM`
log row. -/
theorem get_or_create_lead_no_stage_spec_witness :
    (cfgFull.supabaseConfigured = true ∧
     emptyStore.leads.find? (fun l => jsonEq l.phone (Json.str "+15551234")) = none ∧
     emptyStore.pipeline_stages = []) ∧
    (get_or_create_lead cfgFull emptyStore (Json.str "+15551234") (Json.str "Ana")).2 =
      none :=
  ⟨⟨rfl, rfl, rfl⟩,
   (get_or_create_lead_no_stage_spec cfgFull emptyStore (Json.str "+15551234")
      (Json.str "Ana") rfl rfl rfl).1⟩

/-- The first row of the ascending `position` ordering is a stage of minimal
position (or the table is empty). -/
theorem firstStage_spec (l : List PipelineStage) :
    (l = [] ∧ firstStage l = none) ∨
    (∃ st, firstStage l = some st ∧ st ∈ l ∧
      ∀ st2 ∈ l, st.position ≤ st2.position) := by
  induction l with
  | nil => exact Or.inl ⟨rfl, rfl⟩
  | cons a rest ih =>
    refine Or.inr ?_
    rcases ih with ⟨hnil, hfs⟩ | ⟨st, hfs, hmem, hmin⟩
    · subst hnil
      exact ⟨a, by simp [firstStage], List.mem_cons_self a [], by
        intro st2 hst2
        rcases List.mem_cons.mp hst2 with h | h
        · rw [h]
        · cases h⟩
    · by_cases hp : a.position ≤ st.position
      · refine ⟨a, by simp [firstStage, hfs, hp], List.mem_cons_self a rest, ?_⟩
        intro st2 hst2
        rcases List.mem_cons.mp hst2 with h | h
        · rw [h]
        · exact le_trans hp (hmin st2 h)
      · refine ⟨st, by simp [firstStage, hfs, hp], List.mem_cons_of_mem a hmem, ?_⟩
        intro st2 hst2
        rcases List.mem_cons.mp hst2 with h | h
        · rw [h]; exact le_of_lt (lt_of_not_le hp)
        · exact hmin st2 h

/-- C1 counterexample: a store with exactly one configured pipeline stage
whose id is `0` and no lead for the address, yet `get_or_create_lead`
returns null and creates no lead — the source guards the resolved stage id
with Python truthiness (`if not first_stage_id`), so the falsy id `0` takes
the no-stage error path even though a stage is configured. -/
theorem get_or_create_lead_stage_id_zero_cex :
    stageZeroStore.leads = [] ∧
    stageZeroStore.pipeline_stages = [{ id := 0, position := 0 }] ∧
    (get_or_create_lead cfgFull stageZeroStore (Json.str "+15551234")
       (Json.str "Ana")).2 = none ∧
    (get_or_create_lead cfgFull stageZeroStore (Json.str "+15551234")
       (Json.str "Ana")).1.leads = [] :=
  ⟨rfl, rfl, rfl, rfl⟩

/-- C1 (amended): with the client configured, for a recipient address with no
existing lead, when the ascending-position stage query returns a stage and
that stage's id is truthy (nonzero), the resolver inserts exactly one new
lead — carrying the given address and display name, the resolved stage (a
stage of minimal ordinal position), unread count 1 and an empty custom-field
mapping — returns that record, and writes nothing else. -/
theorem get_or_create_lead_creates_first_stage_lead
    (cfg : Config) (s : Store) (phone name : Json) (st : PipelineStage)
    (hcfg : cfg.supabaseConfigured = true)
    (hmiss : s.leads.find? (fun l => jsonEq l.phone phone) = none)
    (hfs : firstStage s.pipeline_stages = some st)
    (hid : st.id ≠ 0) :
    (get_or_create_lead cfg s phone name).2 =
      some { id := s.nextLeadId, name := name, phone := phone, stage_id := st.id,
             unread_count := 1, custom_fields := [],
             last_message_at := none, last_message_content := none } ∧
    (get_or_create_lead cfg s phone name).1.leads =
      s.leads ++ [{ id := s.nextLeadId, name := name, phone := phone, stage_id := st.id,
                    unread_count := 1, custom_fields := [],
                    last_message_at := none, last_message_content := none }] ∧
    (get_or_create_lead cfg s phone name).1.messages = s.messages ∧
    (get_or_create_lead cfg s phone name).1.system_logs = s.system_logs ∧
    st ∈ s.pipeline_stages ∧
    (∀ st2 ∈ s.pipeline_stages, st.position ≤ st2.position) := by
  have hg : get_or_create_lead cfg s phone name =
      ({ s with
         leads := s.leads ++
           [{ id := s.nextLeadId, name := name, phone := phone, stage_id := st.id,
              unread_count := 1, custom_fields := [],
              last_message_at := none, last_message_content := none }],
         nextLeadId := s.nextLeadId + 1 },
       some { id := s.nextLeadId, name := name, phone := phone, stage_id := st.id,
              unread_count := 1, custom_fields := [],
              last_message_at := none, last_message_content := none }) := by
    unfold get_or_create_lead
    rw [hcfg, hmiss]
    simp only [hfs]
    rw [if_neg hid]
    rfl
  have hmm : st ∈ s.pipeline_stages ∧ ∀ st2 ∈ s.pipeline_stages,
      st.position ≤ st2.position := by
    rcases firstStage_spec s.pipeline_stages with ⟨_, hnone⟩ | ⟨st3, hfs3, hmem3, hmin3⟩
    · rw [hnone] at hfs; exact absurd hfs (by simp)
    · rw [hfs3] at hfs
      injection hfs with h3
      subst h3
      exact ⟨hmem3, hmin3⟩
  exact ⟨by rw [hg], by rw [hg], by rw [hg], by rw [hg], hmm.1, hmm.2⟩

/-- C1 witness: in a concrete store with stages of positions 4 and 2 and no
lead, the resolver creates the id-1 lead on the position-2 stage (id 7). -/
theorem get_or_create_lead_creates_first_stage_lead_witness :
    (cfgFull.supabaseConfigured = true ∧
     stageOneStore.leads.find? (fun l => jsonEq l.phone (Json.str "+15551234")) = none ∧
     firstStage stageOneStore.pipeline_stages = some { id := 7, position := 2 }) ∧
    (get_or_create_lead cfgFull stageOneStore (Json.str "+15551234")
       (Json.str "Ana")).2 =
      some { id := 1, name := Json.str "Ana", phone := Json.str "+15551234",
             stage_id := 7, unread_count := 1, custom_fields := [],
             last_message_at := none, last_message_content := none } :=
  ⟨⟨rfl, rfl, rfl⟩,
   (get_or_create_lead_creates_first_stage_lead cfgFull stageOneStore
      (Json.str "+15551234") (Json.str "Ana") { id := 7, position := 2 }
      rfl rfl rfl (by decide)).1⟩

/-- C2: with the client configured and a truthy lead identifier, recording an
inbound message inserts exactly one `read` message row and updates every
matching lead's last-message timestamp (to the store clock) and last-message
content to exactly the recorded text, leaving other leads unchanged;
recording an outbound message inserts one `sent` row. -/
theorem salvar_mensagem_directional_spec (cfg : Config) (s : Store)
    (lead_id content : Json)
    (hcfg : cfg.supabaseConfigured = true)
    (hlid : pyTruthy lead_id = true) :
    (salvar_mensagem cfg s lead_id content "inbound").messages =
      s.messages ++ [{ lead_id := lead_id, content := content, direction := "inbound",
                       type := "text", status := "read" }] ∧
    (∀ l ∈ s.leads, leadIdMatches l lead_id = true →
      { l with last_message_at := some s.now, last_message_content := some content } ∈
        (salvar_mensagem cfg s lead_id content "inbound").leads) ∧
    (∀ l ∈ s.leads, leadIdMatches l lead_id = false →
      l ∈ (salvar_mensagem cfg s lead_id content "inbound").leads) ∧
    (salvar_mensagem cfg s lead_id content "outbound").messages =
      s.messages ++ [{ lead_id := lead_id, content := content, direction := "outbound",
                       type := "text", status := "sent" }] := by
  have hin : salvar_mensagem cfg s lead_id content "inbound" =
      { s with
        messages := s.messages ++
          [{ lead_id := lead_id, content := content, direction := "inbound",
             type := "text", status := "read" }],
        leads := s.leads.map (fun l =>
          if leadIdMatches l lead_id then
            { l with last_message_at := some s.now, last_message_content := some content }
          else l) } := by
    unfold salvar_mensagem
    rw [hcfg, hlid]
    rfl
  have hout : salvar_mensagem cfg s lead_id content "outbound" =
      { s with
        messages := s.messages ++
          [{ lead_id := lead_id, content := content, direction := "outbound",
             type := "text", status := "sent" }] } := by
    unfold salvar_mensagem
    rw [hcfg, hlid]
    rfl
  refine ⟨by rw [hin], ?_, ?_, by rw [hout]⟩
  · intro l hl hm
    rw [hin]
    exact List.mem_map.mpr ⟨l, hl, by simp [hm]⟩
  · intro l hl hm
    rw [hin]
    exact List.mem_map.mpr ⟨l, hl, by simp [hm]⟩

/-- C2 witness: recording "Hello" inbound for the concrete lead 3 updates its
last-message fields and appends the `read` row. -/
theorem salvar_mensagem_directional_spec_witness :
    (cfgFull.supabaseConfigured = true ∧ pyTruthy (Json.num 3) = true ∧
     anaLead ∈ oneLeadStore.leads ∧ leadIdMatches anaLead (Json.num 3) = true) ∧
    { anaLead with last_message_at := some oneLeadStore.now,
                   last_message_content := some (Json.str "Hello") } ∈
      (salvar_mensagem cfgFull oneLeadStore (Json.num 3) (Json.str "Hello")
         "inbound").leads :=
  ⟨⟨rfl, rfl, List.mem_cons_self anaLead [], rfl⟩,
   (salvar_mensagem_directional_spec cfgFull oneLeadStore (Json.num 3)
      (Json.str "Hello") rfl rfl).2.1 anaLead (List.mem_cons_self anaLead []) rfl⟩

/-- C4 counterexample: with the Meta credentials absent and no Supabase
client, the dispatcher does take the configuration-error path, but no
`API_SEND` log entry is written at all (the logger is a silent no-op without
the client), refuting "exactly one log entry is written". -/
theorem enviar_mensagem_whatsapp_no_store_log_cex :
    (enviar_mensagem_whatsapp cfgNone emptyStore (Json.str "+15551234")
       (Json.str "hi") (Except.ok ())).2 = SendResult.configError ∧
    (enviar_mensagem_whatsapp cfgNone emptyStore (Json.str "+15551234")
       (Json.str "hi") (Except.ok ())).1.system_logs = [] :=
  ⟨rfl, rfl⟩

/-- C4 (amended): whenever a Meta credential is falsy, the send fails
immediately with the configuration-error result, the outcome is independent
of the network oracle (no network call is attempted), no lead or message is
touched, and — when the Supabase client is configured — exactly one
`API_SEND`-sourced error log entry is written (none is written without the
client, whose absence silently disables logging). -/
theorem enviar_mensagem_whatsapp_config_error (cfg : Config) (s : Store)
    (numero texto : Json)
    (hcred : optStrTruthy cfg.metaToken = false ∨ optStrTruthy cfg.metaPhoneId = false) :
    (∀ net net' : Except String Unit,
      enviar_mensagem_whatsapp cfg s numero texto net =
        enviar_mensagem_whatsapp cfg s numero texto net') ∧
    (∀ net, (enviar_mensagem_whatsapp cfg s numero texto net).2 =
      SendResult.configError) ∧
    (∀ net, (enviar_mensagem_whatsapp cfg s numero texto net).1.leads = s.leads) ∧
    (∀ net, (enviar_mensagem_whatsapp cfg s numero texto net).1.messages = s.messages) ∧
    (∀ net, (enviar_mensagem_whatsapp cfg s numero texto net).1.system_logs =
      (if cfg.supabaseConfigured then
        s.system_logs ++
          [{ level := "ERROR", source := "API_SEND",
             message := "Credenciais da Meta não configuradas.",
             metadata := none }]
       else s.system_logs)) := by
  have hcond : (!optStrTruthy cfg.metaToken || !optStrTruthy cfg.metaPhoneId) = true := by
    rcases hcred with h | h <;> simp [h]
  have heq : ∀ net : Except String Unit,
      enviar_mensagem_whatsapp cfg s numero texto net =
        (log_system_event cfg s "ERROR" "API_SEND"
          "Credenciais da Meta não configuradas." none,
         SendResult.configError) := by
    intro net
    unfold enviar_mensagem_whatsapp
    rw [hcond]
    rfl
  refine ⟨fun net net' => (heq net).trans (heq net').symm,
    fun net => by rw [heq net], fun net => ?_, fun net => ?_, fun net => ?_⟩ <;>
    (rw [heq net]; unfold log_system_event;
     cases hc : cfg.supabaseConfigured <;> simp [hc])

/-- C4 witness: with the client configured but no token, the call at a
concrete input yields the configuration-error result. -/
theorem enviar_mensagem_whatsapp_config_error_witness :
    (optStrTruthy cfgStoreOnly.metaToken = false) ∧
    (enviar_mensagem_whatsapp cfgStoreOnly emptyStore (Json.str "+15551234")
       (Json.str "hi") (Except.ok ())).2 = SendResult.configError :=
  ⟨rfl,
   (enviar_mensagem_whatsapp_config_error cfgStoreOnly emptyStore
      (Json.str "+15551234") (Json.str "hi") (Or.inl rfl)).2.1 (Except.ok ())⟩

/-- C3 counterexample: a well-formed send request with truthy phone, text and
lead id, Meta credentials configured and a failing delivery, but no Supabase
client: the endpoint still reports acceptance, yet no message row is
recorded and the delivery failure is not even observable through an
`API_SEND` log entry — the resulting store is unchanged (`emptyStore` has no
messages and no logs), refuting the claim as stated. -/
theorem api_send_message_no_store_cex :
    api_send_message cfgNoStore emptyStore sendData (Except.error "500 Server Error") =
      Except.ok (emptyStore,
        { body := Json.obj [("status", Json.str "sent")], code := 200 }) ∧
    emptyStore.messages = [] ∧
    emptyStore.system_logs = [] :=
  ⟨rfl, rfl, rfl⟩

/-- C3 (amended): with the backing store configured, for every send request
with truthy phone, text and lead identifier and configured Meta credentials,
when the dispatch fails the endpoint still answers `status: sent`, 200, one
outbound `sent` message row is recorded, and the failure is observable only
through the single `API_SEND` error log entry. -/
theorem api_send_message_records_sent_on_delivery_failure
    (cfg : Config) (s : Store) (phone text lead_id : Json) (e : String)
    (hcfg : cfg.supabaseConfigured = true)
    (htok : optStrTruthy cfg.metaToken = true)
    (hpid : optStrTruthy cfg.metaPhoneId = true)
    (hp : pyTruthy phone = true) (ht : pyTruthy text = true)
    (hl : pyTruthy lead_id = true) :
    api_send_message cfg s (sendBody phone text lead_id) (Except.error e) =
      Except.ok
        ({ s with
           messages := s.messages ++
             [{ lead_id := lead_id, content := text, direction := "outbound",
                type := "text", status := "sent" }],
           system_logs := s.system_logs ++
             [{ level := "ERROR", source := "API_SEND",
                message := "Erro ao enviar no WhatsApp: " ++ e,
                metadata := some (Json.obj [("response", Json.str e)]) }] },
         { body := Json.obj [("status", Json.str "sent")], code := 200 }) := by
  have hsend : enviar_mensagem_whatsapp cfg s phone text (Except.error e) =
      (log_system_event cfg s "ERROR" "API_SEND"
         ("Erro ao enviar no WhatsApp: " ++ e)
         (some (Json.obj [("response", Json.str e)])),
       SendResult.deliveryError e) := by
    unfold enviar_mensagem_whatsapp
    rw [htok, hpid]
    rfl
  have hlog : log_system_event cfg s "ERROR" "API_SEND"
      ("Erro ao enviar no WhatsApp: " ++ e)
      (some (Json.obj [("response", Json.str e)])) =
      { s with system_logs := s.system_logs ++
          [{ level := "ERROR", source := "API_SEND",
             message := "Erro ao enviar no WhatsApp: " ++ e,
             metadata := some (Json.obj [("response", Json.str e)]) }] } := by
    unfold log_system_event
    rw [hcfg]
    rfl
  have step : api_send_message cfg s (sendBody phone text lead_id) (Except.error e) =
      (if !pyTruthy phone || !pyTruthy text then
        Except.ok (s, { body := Json.obj [("error", Json.str "Missing phone or text")],
                        code := 400 })
      else
        Except.ok
          ((if pyTruthy lead_id then
              salvar_mensagem cfg
                (enviar_mensagem_whatsapp cfg s phone text (Except.error e)).1
                lead_id text "outbound"
            else (enviar_mensagem_whatsapp cfg s phone text (Except.error e)).1),
           { body := Json.obj [("status", Json.str "sent")], code := 200 })) := rfl
  rw [step, hp, ht, hl, hsend, hlog]
  have hsal : salvar_mensagem cfg
      ({ s with system_logs := s.system_logs ++
          [{ level := "ERROR", source := "API_SEND",
             message := "Erro ao enviar no WhatsApp: " ++ e,
             metadata := some (Json.obj [("response", Json.str e)]) }] })
      lead_id text "outbound" =
      { s with
        messages := s.messages ++
          [{ lead_id := lead_id, content := text, direction := "outbound",
             type := "text", status := "sent" }],
        system_logs := s.system_logs ++
          [{ level := "ERROR", source := "API_SEND",
             message := "Erro ao enviar no WhatsApp: " ++ e,
             metadata := some (Json.obj [("response", Json.str e)]) }] } := by
    unfold salvar_mensagem
    rw [hcfg, hl]
    rfl
  rw [hsal]
  rfl

/-- C3 witness: the amended theorem at the concrete request and a simulated
HTTP 500: the outbound `sent` row and the single `API_SEND` entry. -/
theorem api_send_message_records_sent_on_delivery_failure_witness :
    (cfgFull.supabaseConfigured = true ∧
     pyTruthy (Json.str "+15551234") = true ∧
     pyTruthy (Json.str "Hi back") = true ∧
     pyTruthy (Json.num 42) = true) ∧
    api_send_message cfgFull emptyStore sendData (Except.error "500 Server Error") =
      Except.ok
        ({ emptyStore with
           messages := [{ lead_id := Json.num 42, content := Json.str "Hi back",
                          direction := "outbound", type := "text", status := "sent" }],
           system_logs :=
             [{ level := "ERROR", source := "API_SEND",
                message := "Erro ao enviar no WhatsApp: 500 Server Error",
                metadata := some (Json.obj [("response", Json.str "500 Server Error")]) }] },
         { body := Json.obj [("status", Json.str "sent")], code := 200 }) :=
  ⟨⟨rfl, rfl, rfl, rfl⟩,
   api_send_message_records_sent_on_delivery_failure cfgFull emptyStore
     (Json.str "+15551234") (Json.str "Hi back") (Json.num 42) "500 Server Error"
     rfl rfl rfl rfl rfl rfl⟩

end FaceDoctor
